import Mathlib

/-!
# linux-hello: the Qt video bridge (`VideoBridge.h`, `video_bridge.cpp`)

A shallow embedding of the `VideoBridge` class and of the two `extern "C"`
functions, followed by theorems about them.

Modelling conventions.

* Pointers are `Option Nat`: `none` is `nullptr`, `some a` is the address `a`.
* `int` arguments are `Int`, `size_t` is `Nat`; the code does no arithmetic on them.
* Memory seen through a byte pointer `p` is a function `Nat → Nat`: offset `i` gives `p[i]`.
  The source buffer of `memcpy` (the caller's `data`) and its destination (the buffer of a
  frame constructed inside the call) are distinct objects.
* QtMultimedia is an external library.  What `QVideoFrame::map`, `QVideoFrame::isValid`
  and the allocation made by the `QVideoFrame(format)` constructor answer is a parameter
  (`QtMultimedia`); every theorem holds for every such parameter.
* Every call the code makes into Qt or libc is appended to `World.trace`.
* A member function called through a pointer to an object that is not alive has no
  defined result: the embedding returns `none`.
-/

namespace LinuxHello

/-! ## Qt types -/

/-- The Qt class `QSize`: a width and a height, both `int`. -/
structure QSize where
  wd : Int
  ht : Int
deriving DecidableEq

/-- What `QSize()` constructs: Qt documents an invalid size with width and height -1. -/
def QSize.null : QSize := ⟨-1, -1⟩

/-- The enumeration `QVideoFrameFormat::PixelFormat` of Qt 6. -/
inductive PixelFormat where
  | Format_Invalid
  | Format_ARGB8888
  | Format_ARGB8888_Premultiplied
  | Format_XRGB8888
  | Format_BGRA8888
  | Format_BGRA8888_Premultiplied
  | Format_BGRX8888
  | Format_ABGR8888
  | Format_XBGR8888
  | Format_RGBA8888
  | Format_RGBX8888
  | Format_AYUV
  | Format_AYUV_Premultiplied
  | Format_YUV420P
  | Format_YUV422P
  | Format_YV12
  | Format_UYVY
  | Format_YUYV
  | Format_NV12
  | Format_NV21
  | Format_IMC1
  | Format_IMC2
  | Format_IMC3
  | Format_IMC4
  | Format_Y8
  | Format_Y16
  | Format_P010
  | Format_P016
  | Format_SamplerExternalOES
  | Format_Jpeg
  | Format_SamplerRect
  | Format_YUV420P10
deriving DecidableEq

/-- The Qt class `QVideoFrameFormat`, as built by `QVideoFrameFormat(size, pixelFormat)`. -/
structure QVideoFrameFormat where
  frameSize : QSize
  pixelFormat : PixelFormat
deriving DecidableEq

/-- The Qt class `QVideoFrame`.  `surfaceFormat` is the format the frame was constructed
with, `mappedBytes` the byte count of the buffer the constructor allocated for plane 0,
and `bits0 i` the byte at address `bits(0) + i`; offsets at or past `mappedBytes` are
memory lying after the buffer. -/
structure QVideoFrame where
  surfaceFormat : QVideoFrameFormat
  mappedBytes : Nat
  bits0 : Nat → Nat

/-- The size a frame reports, `QVideoFrame::size()`. -/
def QVideoFrame.size (f : QVideoFrame) : QSize := f.surfaceFormat.frameSize

/-- The pixel format a frame reports, `QVideoFrame::pixelFormat()`. -/
def QVideoFrame.pixelFormat (f : QVideoFrame) : PixelFormat := f.surfaceFormat.pixelFormat

/-- The behaviour of QtMultimedia the bridge relies on, taken as a parameter. -/
structure QtMultimedia where
  /-- Byte count of the plane-0 buffer that `QVideoFrame(format)` allocates. -/
  bytesForFormat : QVideoFrameFormat → Nat
  /-- Content of the memory at `bits(0)` of a frame just constructed. -/
  freshBits : QVideoFrameFormat → Nat → Nat
  /-- Result of `frame.map(QVideoFrame::WriteOnly)`. -/
  mapWriteOnly : QVideoFrame → Bool
  /-- Result of `frame.isValid()`. -/
  isValid : QVideoFrame → Bool

/-- The constructor `QVideoFrame(format)`: the frame keeps the format it is given. -/
def QVideoFrame.ofFormat (qt : QtMultimedia) (format : QVideoFrameFormat) : QVideoFrame :=
  { surfaceFormat := format
    mappedBytes := qt.bytesForFormat format
    bits0 := qt.freshBits format }

/-- The libc function `memcpy(dst, src, n)` on distinct objects: the `n` bytes at `dst`
become the `n` bytes at `src`, every other byte is left as it was. -/
def memcpy (dst src : Nat → Nat) (n : Nat) : Nat → Nat :=
  fun i => if i < n then src i else dst i

/-! ## Program state -/

/-- Address of a `QVideoSink` object (a non-null `QVideoSink *`). -/
abbrev SinkPtr := Nat

/-- Address of a `VideoBridge` object (a non-null `VideoBridge *`). -/
abbrev BridgePtr := Nat

/-- The data members of `class VideoBridge` (VideoBridge.h, lines 40-41). -/
structure VideoBridge where
  m_videoSink : Option SinkPtr
  m_lastSize : QSize
deriving DecidableEq

/-- A call leaving the bridge code, in the order the code makes it. -/
inductive Call where
  /-- The declaration `QVideoFrame frame(format)`. -/
  | newFrame (format : QVideoFrameFormat)
  /-- The call `frame.map(QVideoFrame::WriteOnly)`. -/
  | map
  /-- The call `memcpy(frame.bits(0), data, len)`. -/
  | memcpy (len : Nat)
  /-- The call `frame.unmap()`. -/
  | unmap
  /-- The call `frame.isValid()`. -/
  | isValid
  /-- The call `m_videoSink->setVideoFrame(frame)`. -/
  | setVideoFrame (sink : SinkPtr) (frame : QVideoFrame)
  /-- The statement `emit videoSinkChanged()` of the bridge at the given address. -/
  | videoSinkChanged (bridge : BridgePtr)

/-- The frame deliveries among a list of calls, in order. -/
def setVideoFrameCalls : List Call → List (SinkPtr × QVideoFrame)
  | [] => []
  | Call.setVideoFrame s f :: cs => (s, f) :: setVideoFrameCalls cs
  | _ :: cs => setVideoFrameCalls cs

/-- The byte counts of the `memcpy` calls among a list of calls, in order. -/
def memcpyCalls : List Call → List Nat
  | [] => []
  | Call.memcpy n :: cs => n :: memcpyCalls cs
  | _ :: cs => memcpyCalls cs

/-- The formats of the frames constructed among a list of calls, in order. -/
def newFrameCalls : List Call → List QVideoFrameFormat
  | [] => []
  | Call.newFrame f :: cs => f :: newFrameCalls cs
  | _ :: cs => newFrameCalls cs

/-- The bridges whose `videoSinkChanged` signal is emitted among a list of calls, in order. -/
def videoSinkChangedCalls : List Call → List BridgePtr
  | [] => []
  | Call.videoSinkChanged b :: cs => b :: videoSinkChangedCalls cs
  | _ :: cs => videoSinkChangedCalls cs

/-- The state of the process as far as the bridge is concerned: the file-static pointer
`g_videoBridge` (video_bridge.cpp, line 6), the `VideoBridge` objects that are alive, by
address, and the calls made so far. -/
structure World where
  g_videoBridge : Option BridgePtr
  objects : BridgePtr → Option VideoBridge
  trace : List Call

/-- The state at program start: `g_videoBridge = nullptr`, no bridge, no call made. -/
def World.init : World :=
  { g_videoBridge := none, objects := fun _ => none, trace := [] }

/-- The calls made between state `w` and a later state `w2`. -/
def callsSince (w w2 : World) : List Call := w2.trace.drop w.trace.length

/-- Whether the bridge at address `p` is alive. -/
def World.alive (w : World) (p : BridgePtr) : Bool := (w.objects p).isSome

/-! ## video_bridge.cpp and VideoBridge.h -/

/-- The function `register_video_bridge_callback` (video_bridge.cpp, lines 62-66): its
body holds only comments. -/
def register_video_bridge_callback (w : World) : World := w

/-- The constructor `VideoBridge::VideoBridge` (video_bridge.cpp, lines 8-13) for the
object at address `thisPtr`: `m_videoSink(nullptr)`, `m_lastSize` default-constructed,
then `g_videoBridge = this` and the call of `register_video_bridge_callback`. -/
def VideoBridge.construct (w : World) (thisPtr : BridgePtr) : World :=
  let self : VideoBridge := { m_videoSink := none, m_lastSize := QSize.null }
  let w1 : World := { w with objects := Function.update w.objects thisPtr (some self) }
  let w2 : World := { w1 with g_videoBridge := some thisPtr }
  register_video_bridge_callback w2

/-- The destructor `VideoBridge::~VideoBridge` (video_bridge.cpp, lines 15-19) for the
object at address `thisPtr`: `if (g_videoBridge == this) g_videoBridge = nullptr;`, after
which the object is no longer alive. -/
def VideoBridge.destruct (w : World) (thisPtr : BridgePtr) : World :=
  let w1 : World :=
    if w.g_videoBridge = some thisPtr then { w with g_videoBridge := none } else w
  { w1 with objects := Function.update w1.objects thisPtr none }

/-- The getter `VideoBridge::videoSink` (VideoBridge.h, line 21). -/
def VideoBridge.videoSink (w : World) (thisPtr : BridgePtr) : Option (Option SinkPtr) :=
  match w.objects thisPtr with
  | none => none
  | some self => some self.m_videoSink

/-- The setter `VideoBridge::setVideoSink` (VideoBridge.h, lines 24-30). -/
def VideoBridge.setVideoSink (w : World) (thisPtr : BridgePtr) (sink : Option SinkPtr) :
    Option World :=
  match w.objects thisPtr with
  | none => none
  | some self =>
    if self.m_videoSink = sink then
      some w
    else
      let self2 : VideoBridge := { self with m_videoSink := sink }
      some { w with
        objects := Function.update w.objects thisPtr (some self2)
        trace := w.trace ++ [Call.videoSinkChanged thisPtr] }

/-- The member function `VideoBridge::createYUYVFrame` (video_bridge.cpp, lines 31-49).
It reads no data member, so it takes no `thisPtr` argument.  It returns the frame together
with the calls it made. -/
def VideoBridge.createYUYVFrame (qt : QtMultimedia) (data : Nat → Nat) (len : Nat)
    (width height : Int) : QVideoFrame × List Call :=
  let format : QVideoFrameFormat := ⟨⟨width, height⟩, PixelFormat.Format_YUYV⟩
  let frame := QVideoFrame.ofFormat qt format
  if qt.mapWriteOnly frame then
    ({ frame with bits0 := memcpy frame.bits0 data len },
      [Call.newFrame format, Call.map, Call.memcpy len, Call.unmap])
  else
    (frame, [Call.newFrame format, Call.map])

/-- The member function `VideoBridge::pushFrameYUYV` (video_bridge.cpp, lines 21-29) of
the object at address `thisPtr`. -/
def VideoBridge.pushFrameYUYV (qt : QtMultimedia) (w : World) (thisPtr : BridgePtr)
    (data : Nat → Nat) (len : Nat) (width height : Int) : Option World :=
  match w.objects thisPtr with
  | none => none
  | some self =>
    match self.m_videoSink with
    | none => some w
    | some sink =>
      let built := VideoBridge.createYUYVFrame qt data len width height
      if qt.isValid built.1 then
        some { w with
          trace := w.trace ++ built.2 ++ [Call.isValid, Call.setVideoFrame sink built.1] }
      else
        some { w with trace := w.trace ++ built.2 ++ [Call.isValid] }

/-- The function `push_frame_yuyv_from_rust` (video_bridge.cpp, lines 54-60). -/
def push_frame_yuyv_from_rust (qt : QtMultimedia) (w : World)
    (data : Nat → Nat) (len : Nat) (width height : Int) : Option World :=
  match w.g_videoBridge with
  | none => some w
  | some bridge => VideoBridge.pushFrameYUYV qt w bridge data len width height

/-! ## Sequences of constructions and destructions -/

/-- A construction or a destruction of the bridge at an address. -/
inductive LifeOp where
  | construct (thisPtr : BridgePtr)
  | destruct (thisPtr : BridgePtr)
deriving DecidableEq

/-- One construction or destruction. -/
def LifeOp.apply (w : World) : LifeOp → World
  | LifeOp.construct p => VideoBridge.construct w p
  | LifeOp.destruct p => VideoBridge.destruct w p

/-- A sequence of constructions and destructions, run from the left. -/
def runLife (w : World) (ops : List LifeOp) : World := ops.foldl LifeOp.apply w

/-! ## Sample inputs -/

/-- A QtMultimedia that allocates `2 * width * height` bytes, zero-filled, for a frame,
maps a frame when its buffer is not empty and counts it valid under the same condition. -/
def qtSample : QtMultimedia :=
  { bytesForFormat := fun f => (2 * f.frameSize.wd * f.frameSize.ht).toNat
    freshBits := fun _ _ => 0
    mapWriteOnly := fun f => decide (0 < f.mappedBytes)
    isValid := fun f => decide (0 < f.mappedBytes) }

/-- A caller buffer: byte `i` is `i + 1` for the first eight bytes, 0 afterwards. -/
def dataSample : Nat → Nat := fun i => if i < 8 then i + 1 else 0

/-- A state with one bridge, at address 1, registered, with sink 7 set. -/
def worldSample : World :=
  { g_videoBridge := some 1
    objects := fun p => if p = 1 then some { m_videoSink := some 7, m_lastSize := QSize.null }
      else none
    trace := [] }

/-- A state with one bridge, at address 1, registered, with no sink set. -/
def worldNoSink : World :=
  { g_videoBridge := some 1
    objects := fun p => if p = 1 then some { m_videoSink := none, m_lastSize := QSize.null }
      else none
    trace := [] }

/-! ## Auxiliary definitions -/

/-- The calls `pushFrameYUYV` makes, as a function of the sink
pointer of the bridge and of the arguments. -/
def pushFrameYUYV_calls (qt : QtMultimedia) (sink : Option SinkPtr) (data : Nat → Nat)
    (len : Nat) (width height : Int) : List Call :=
  match sink with
  | none => []
  | some s =>
    (VideoBridge.createYUYVFrame qt data len width height).2 ++
      (if qt.isValid (VideoBridge.createYUYVFrame qt data len width height).1 then
        [Call.isValid, Call.setVideoFrame s (VideoBridge.createYUYVFrame qt data len width height).1]
      else [Call.isValid])

/-- The singleton invariant: `g_videoBridge` is null or the address of an alive bridge. -/
def World.registeredAlive (w : World) : Prop :=
  w.g_videoBridge = none ∨ ∃ b, w.g_videoBridge = some b ∧ w.alive b = true

/-! ## Shared lemmas -/

theorem callsSince_append (w : World) (g : Option BridgePtr)
    (o : BridgePtr → Option VideoBridge) (cs : List Call) :
    callsSince w { g_videoBridge := g, objects := o, trace := w.trace ++ cs } = cs := by
  simp [callsSince]

theorem callsSince_self (w : World) : callsSince w w = [] := by
  simp [callsSince]

theorem setVideoFrameCalls_append (xs ys : List Call) :
    setVideoFrameCalls (xs ++ ys) = setVideoFrameCalls xs ++ setVideoFrameCalls ys := by
  induction xs with
  | nil => rfl
  | cons x xs ih => cases x <;> simp [setVideoFrameCalls, ih]

theorem createYUYVFrame_surfaceFormat (qt : QtMultimedia) (data : Nat → Nat) (len : Nat)
    (width height : Int) :
    (VideoBridge.createYUYVFrame qt data len width height).1.surfaceFormat
      = ⟨⟨width, height⟩, PixelFormat.Format_YUYV⟩ := by
  unfold VideoBridge.createYUYVFrame
  dsimp only
  split <;> rfl

theorem createYUYVFrame_noDelivery (qt : QtMultimedia) (data : Nat → Nat) (len : Nat)
    (width height : Int) :
    setVideoFrameCalls (VideoBridge.createYUYVFrame qt data len width height).2 = [] := by
  unfold VideoBridge.createYUYVFrame
  dsimp only
  split <;> rfl

theorem pushFrameYUYV_noSink (qt : QtMultimedia) (w : World) (thisPtr : BridgePtr)
    (self : VideoBridge) (data : Nat → Nat) (len : Nat) (width height : Int)
    (hobj : w.objects thisPtr = some self) (hsink : self.m_videoSink = none) :
    VideoBridge.pushFrameYUYV qt w thisPtr data len width height = some w := by
  simp [VideoBridge.pushFrameYUYV, hobj, hsink]

theorem pushFrameYUYV_valid (qt : QtMultimedia) (w : World) (thisPtr : BridgePtr)
    (self : VideoBridge) (sink : SinkPtr) (data : Nat → Nat) (len : Nat) (width height : Int)
    (hobj : w.objects thisPtr = some self) (hsink : self.m_videoSink = some sink)
    (hvalid : qt.isValid (VideoBridge.createYUYVFrame qt data len width height).1 = true) :
    VideoBridge.pushFrameYUYV qt w thisPtr data len width height
      = some { w with
          trace := w.trace ++ ((VideoBridge.createYUYVFrame qt data len width height).2
            ++ [Call.isValid,
                Call.setVideoFrame sink
                  (VideoBridge.createYUYVFrame qt data len width height).1]) } := by
  simp [VideoBridge.pushFrameYUYV, hobj, hsink, hvalid]

theorem pushFrameYUYV_invalid (qt : QtMultimedia) (w : World) (thisPtr : BridgePtr)
    (self : VideoBridge) (sink : SinkPtr) (data : Nat → Nat) (len : Nat) (width height : Int)
    (hobj : w.objects thisPtr = some self) (hsink : self.m_videoSink = some sink)
    (hvalid : qt.isValid (VideoBridge.createYUYVFrame qt data len width height).1 = false) :
    VideoBridge.pushFrameYUYV qt w thisPtr data len width height
      = some { w with
          trace := w.trace ++ ((VideoBridge.createYUYVFrame qt data len width height).2
            ++ [Call.isValid]) } := by
  simp [VideoBridge.pushFrameYUYV, hobj, hsink, hvalid]

theorem setVideoSink_same (w : World) (thisPtr : BridgePtr) (self : VideoBridge)
    (s : Option SinkPtr) (hobj : w.objects thisPtr = some self) (hs : self.m_videoSink = s) :
    VideoBridge.setVideoSink w thisPtr s = some w := by
  simp [VideoBridge.setVideoSink, hobj, hs]

theorem setVideoSink_differs (w : World) (thisPtr : BridgePtr) (self : VideoBridge)
    (s : Option SinkPtr) (hobj : w.objects thisPtr = some self) (hs : self.m_videoSink ≠ s) :
    VideoBridge.setVideoSink w thisPtr s
      = some { g_videoBridge := w.g_videoBridge
               objects := Function.update w.objects thisPtr
                 (some { m_videoSink := s, m_lastSize := self.m_lastSize })
               trace := w.trace ++ [Call.videoSinkChanged thisPtr] } := by
  simp [VideoBridge.setVideoSink, hobj, hs]

theorem pushFrameYUYV_eq (qt : QtMultimedia) (w : World) (thisPtr : BridgePtr)
    (self : VideoBridge) (data : Nat → Nat) (len : Nat) (width height : Int)
    (hobj : w.objects thisPtr = some self) :
    VideoBridge.pushFrameYUYV qt w thisPtr data len width height
      = some { g_videoBridge := w.g_videoBridge
               objects := w.objects
               trace := w.trace
                 ++ pushFrameYUYV_calls qt self.m_videoSink data len width height } := by
  cases hs : self.m_videoSink with
  | none => simp [VideoBridge.pushFrameYUYV, hobj, hs, pushFrameYUYV_calls]
  | some sink =>
    cases hv : qt.isValid (VideoBridge.createYUYVFrame qt data len width height).1 <;>
      simp [VideoBridge.pushFrameYUYV, hobj, hs, hv, pushFrameYUYV_calls]

theorem pushFrameYUYV_calls_deliveries (qt : QtMultimedia) (sink : Option SinkPtr)
    (data : Nat → Nat) (len : Nat) (width height : Int) :
    (setVideoFrameCalls (pushFrameYUYV_calls qt sink data len width height)).length ≤ 1 ∧
    ∀ c ∈ setVideoFrameCalls (pushFrameYUYV_calls qt sink data len width height),
      some c.1 = sink := by
  cases sink with
  | none => simp [pushFrameYUYV_calls, setVideoFrameCalls]
  | some s =>
    cases hv : qt.isValid (VideoBridge.createYUYVFrame qt data len width height).1 <;>
      simp [pushFrameYUYV_calls, hv, setVideoFrameCalls_append, createYUYVFrame_noDelivery,
        setVideoFrameCalls]

theorem setVideoSink_result (w w2 : World) (thisPtr : BridgePtr) (s : Option SinkPtr)
    (h : VideoBridge.setVideoSink w thisPtr s = some w2) :
    w2.g_videoBridge = w.g_videoBridge ∧
    (∃ self2, w2.objects thisPtr = some self2 ∧ self2.m_videoSink = s) ∧
    (∀ q, q ≠ thisPtr → w2.objects q = w.objects q) := by
  unfold VideoBridge.setVideoSink at h
  cases hobj : w.objects thisPtr with
  | none => simp [hobj] at h
  | some self =>
    simp only [hobj] at h
    by_cases hs : self.m_videoSink = s
    · simp only [hs, if_true, Option.some.injEq] at h
      subst h
      exact ⟨rfl, ⟨self, hobj, hs⟩, fun _ _ => rfl⟩
    · simp only [hs, if_false, Option.some.injEq] at h
      subst h
      refine ⟨rfl, ⟨{ m_videoSink := s, m_lastSize := self.m_lastSize }, by simp, rfl⟩, ?_⟩
      intro q hq
      simp [Function.update, hq]

theorem construct_registeredAlive (w : World) (p : BridgePtr) :
    (VideoBridge.construct w p).registeredAlive := by
  right
  exact ⟨p, rfl, by simp [VideoBridge.construct, register_video_bridge_callback, World.alive]⟩

theorem destruct_registeredAlive (w : World) (p : BridgePtr) (h : w.registeredAlive) :
    (VideoBridge.destruct w p).registeredAlive := by
  by_cases hg : w.g_videoBridge = some p
  · left
    simp [VideoBridge.destruct, hg]
  · rcases h with h | ⟨b, hb, hal⟩
    · left
      simp [VideoBridge.destruct, hg, h]
    · right
      have hne : b ≠ p := by
        intro e
        apply hg
        rw [hb, e]
      refine ⟨b, by simp [VideoBridge.destruct, hb, hne], ?_⟩
      simpa [VideoBridge.destruct, hg, World.alive, Function.update, hne] using hal

theorem runLife_registeredAlive (ops : List LifeOp) :
    ∀ w : World, w.registeredAlive → (runLife w ops).registeredAlive := by
  induction ops with
  | nil => intro w h; exact h
  | cons op ops ih =>
    intro w h
    unfold runLife
    rw [List.foldl_cons]
    apply ih
    cases op with
    | construct p => exact construct_registeredAlive w p
    | destruct p => exact destruct_registeredAlive w p h

/-! ## Delivery of a frame -/

/-- C1: for a bridge that is alive and whose video sink is set, a call
`pushFrameYUYV(data, len, width, height)` with `width > 0`, `height > 0` and
`len = 2 * width * height`, for which the created frame maps and is valid, returns and makes
exactly one `setVideoFrame` call, on that sink, with the frame `createYUYVFrame` built,
whose size is `(width, height)`. -/
theorem C1_pushFrameYUYV_delivers_frame (qt : QtMultimedia) (w : World) (thisPtr : BridgePtr)
    (self : VideoBridge) (sink : SinkPtr) (data : Nat → Nat) (len : Nat) (width height : Int)
    (hobj : w.objects thisPtr = some self) (hsink : self.m_videoSink = some sink)
    (hwidth : 0 < width) (hheight : 0 < height) (hlen : (len : Int) = 2 * width * height)
    (hmap : qt.mapWriteOnly
      (QVideoFrame.ofFormat qt ⟨⟨width, height⟩, PixelFormat.Format_YUYV⟩) = true)
    (hvalid : qt.isValid (VideoBridge.createYUYVFrame qt data len width height).1 = true) :
    ∃ w2 frame,
      VideoBridge.pushFrameYUYV qt w thisPtr data len width height = some w2 ∧
      setVideoFrameCalls (callsSince w w2) = [(sink, frame)] ∧
      frame = (VideoBridge.createYUYVFrame qt data len width height).1 ∧
      frame.size = ⟨width, height⟩ := by
  have _ := hwidth
  have _ := hheight
  have _ := hlen
  have _ := hmap
  refine ⟨_, _, pushFrameYUYV_valid qt w thisPtr self sink data len width height hobj hsink
    hvalid, ?_, rfl, ?_⟩
  · rw [callsSince_append, setVideoFrameCalls_append, createYUYVFrame_noDelivery]
    rfl
  · simp [QVideoFrame.size, createYUYVFrame_surfaceFormat]

/-- C1 at a concrete input: the bridge at address 1 of `worldSample` (sink 7), a 2 by 2
frame of 8 bytes. -/
theorem C1_pushFrameYUYV_delivers_frame_witness :
    ∃ w2 frame,
      VideoBridge.pushFrameYUYV qtSample worldSample 1 dataSample 8 2 2 = some w2 ∧
      setVideoFrameCalls (callsSince worldSample w2) = [(7, frame)] ∧
      frame = (VideoBridge.createYUYVFrame qtSample dataSample 8 2 2).1 ∧
      frame.size = ⟨2, 2⟩ :=
  C1_pushFrameYUYV_delivers_frame qtSample worldSample 1
    { m_videoSink := some 7, m_lastSize := QSize.null } 7 dataSample 8 2 2
    rfl rfl (by decide) (by decide) (by decide) (by decide) (by decide)

/-! ## Dropped frames -/

/-- C2: for a bridge that is alive and every input, `pushFrameYUYV` returns; it calls
`setVideoFrame` if and only if the sink pointer is not null and the frame built by
`createYUYVFrame` is valid; with a null sink it makes no call at all (no frame is built,
the state is the one before the call); with a sink and an invalid frame the only calls
are those of `createYUYVFrame` and the `isValid` test, and nothing else of the state
changes, so no error is reported anywhere. -/
theorem C2_pushFrameYUYV_drops_exactly_undeliverable (qt : QtMultimedia) (w : World)
    (thisPtr : BridgePtr) (self : VideoBridge) (data : Nat → Nat) (len : Nat)
    (width height : Int) (hobj : w.objects thisPtr = some self) :
    ∃ w2,
      VideoBridge.pushFrameYUYV qt w thisPtr data len width height = some w2 ∧
      (setVideoFrameCalls (callsSince w w2) ≠ [] ↔
        (self.m_videoSink ≠ none ∧
          qt.isValid (VideoBridge.createYUYVFrame qt data len width height).1 = true)) ∧
      (self.m_videoSink = none → w2 = w ∧ newFrameCalls (callsSince w w2) = []) ∧
      (self.m_videoSink ≠ none →
        qt.isValid (VideoBridge.createYUYVFrame qt data len width height).1 = false →
        callsSince w w2
            = (VideoBridge.createYUYVFrame qt data len width height).2 ++ [Call.isValid] ∧
          w2.g_videoBridge = w.g_videoBridge ∧ w2.objects = w.objects) := by
  cases hs : self.m_videoSink with
  | none =>
    refine ⟨w, pushFrameYUYV_noSink qt w thisPtr self data len width height hobj hs, ?_, ?_, ?_⟩
    · simp [callsSince_self, setVideoFrameCalls]
    · intro _
      exact ⟨rfl, by simp [callsSince_self, newFrameCalls]⟩
    · intro h
      exact absurd rfl h
  | some sink =>
    cases hv : qt.isValid (VideoBridge.createYUYVFrame qt data len width height).1 with
    | true =>
      refine ⟨_, pushFrameYUYV_valid qt w thisPtr self sink data len width height hobj hs hv,
        ?_, ?_, ?_⟩
      · rw [callsSince_append, setVideoFrameCalls_append, createYUYVFrame_noDelivery]
        simp [setVideoFrameCalls]
      · intro h
        cases h
      · intro _ h
        cases h
    | false =>
      refine ⟨_, pushFrameYUYV_invalid qt w thisPtr self sink data len width height hobj hs hv,
        ?_, ?_, ?_⟩
      · rw [callsSince_append, setVideoFrameCalls_append, createYUYVFrame_noDelivery]
        simp [setVideoFrameCalls]
      · intro h
        cases h
      · intro _ _
        exact ⟨callsSince_append _ _ _ _, rfl, rfl⟩

/-- C2 at a concrete input: the bridge at address 1 of `worldNoSink`, whose sink is null. -/
theorem C2_pushFrameYUYV_drops_exactly_undeliverable_witness :
    worldNoSink.objects 1 = some { m_videoSink := none, m_lastSize := QSize.null } ∧
    ∃ w2,
      VideoBridge.pushFrameYUYV qtSample worldNoSink 1 dataSample 8 2 2 = some w2 ∧
      (setVideoFrameCalls (callsSince worldNoSink w2) ≠ [] ↔
        ((none : Option SinkPtr) ≠ none ∧
          qtSample.isValid (VideoBridge.createYUYVFrame qtSample dataSample 8 2 2).1 = true)) ∧
      ((none : Option SinkPtr) = none →
        w2 = worldNoSink ∧ newFrameCalls (callsSince worldNoSink w2) = []) ∧
      ((none : Option SinkPtr) ≠ none →
        qtSample.isValid (VideoBridge.createYUYVFrame qtSample dataSample 8 2 2).1 = false →
        callsSince worldNoSink w2
            = (VideoBridge.createYUYVFrame qtSample dataSample 8 2 2).2 ++ [Call.isValid] ∧
          w2.g_videoBridge = worldNoSink.g_videoBridge ∧ w2.objects = worldNoSink.objects) :=
  ⟨rfl, C2_pushFrameYUYV_drops_exactly_undeliverable qtSample worldNoSink 1
    { m_videoSink := none, m_lastSize := QSize.null } dataSample 8 2 2 rfl⟩

/-! ## The entry point called from Rust -/

/-- C3: `push_frame_yuyv_from_rust(data, len, width, height)` passes through to the
registered bridge: when `g_videoBridge` points to a bridge, its result is that of the
bridge's `pushFrameYUYV` with the same four arguments, and when `g_videoBridge` is null it
returns with the state it was called in. -/
theorem C3_push_frame_yuyv_from_rust_pass_through (qt : QtMultimedia) (w : World)
    (data : Nat → Nat) (len : Nat) (width height : Int) :
    (∀ bridge, w.g_videoBridge = some bridge →
      push_frame_yuyv_from_rust qt w data len width height
        = VideoBridge.pushFrameYUYV qt w bridge data len width height) ∧
    (w.g_videoBridge = none →
      push_frame_yuyv_from_rust qt w data len width height = some w) := by
  constructor
  · intro bridge hg
    simp [push_frame_yuyv_from_rust, hg]
  · intro hg
    simp [push_frame_yuyv_from_rust, hg]

/-- C3 at concrete inputs: `worldSample`, where the bridge at address 1 is registered, and
the state at program start, where none is. -/
theorem C3_push_frame_yuyv_from_rust_pass_through_witness :
    (worldSample.g_videoBridge = some 1 ∧
      push_frame_yuyv_from_rust qtSample worldSample dataSample 8 2 2
        = VideoBridge.pushFrameYUYV qtSample worldSample 1 dataSample 8 2 2) ∧
    (World.init.g_videoBridge = none ∧
      push_frame_yuyv_from_rust qtSample World.init dataSample 8 2 2 = some World.init) :=
  ⟨⟨rfl, (C3_push_frame_yuyv_from_rust_pass_through qtSample worldSample dataSample 8 2 2).1
      1 rfl⟩,
   ⟨rfl, (C3_push_frame_yuyv_from_rust_pass_through qtSample World.init dataSample 8 2 2).2
      rfl⟩⟩

/-! ## The frame that is built -/

/-- C4: for every width, height, data and len, the frame built by `createYUYVFrame` has
the pixel format `Format_YUYV` and the size `(width, height)`; exactly one frame is
constructed, with that format; the format of the frame is the same for any other data and
len; and the frame has no pixel format other than `Format_YUYV`. -/
theorem C4_createYUYVFrame_format_and_size (qt : QtMultimedia) (data : Nat → Nat) (len : Nat)
    (width height : Int) :
    (VideoBridge.createYUYVFrame qt data len width height).1.pixelFormat
        = PixelFormat.Format_YUYV ∧
    (VideoBridge.createYUYVFrame qt data len width height).1.size = ⟨width, height⟩ ∧
    newFrameCalls (VideoBridge.createYUYVFrame qt data len width height).2
        = [⟨⟨width, height⟩, PixelFormat.Format_YUYV⟩] ∧
    (∀ (data2 : Nat → Nat) (len2 : Nat),
      (VideoBridge.createYUYVFrame qt data2 len2 width height).1.surfaceFormat
        = (VideoBridge.createYUYVFrame qt data len width height).1.surfaceFormat) ∧
    (∀ p : PixelFormat, p ≠ PixelFormat.Format_YUYV →
      (VideoBridge.createYUYVFrame qt data len width height).1.pixelFormat ≠ p) := by
  refine ⟨?_, ?_, ?_, ?_, ?_⟩
  · simp [QVideoFrame.pixelFormat, createYUYVFrame_surfaceFormat]
  · simp [QVideoFrame.size, createYUYVFrame_surfaceFormat]
  · unfold VideoBridge.createYUYVFrame
    dsimp only
    split <;> rfl
  · intro data2 len2
    rw [createYUYVFrame_surfaceFormat, createYUYVFrame_surfaceFormat]
  · intro p hp h
    apply hp
    rw [← h]
    simp [QVideoFrame.pixelFormat, createYUYVFrame_surfaceFormat]

/-- C4 at a concrete input: a 2 by 2 frame built from `dataSample` does not carry the
pixel format `Format_UYVY`, and its size is `(2, 2)`. -/
theorem C4_createYUYVFrame_format_and_size_witness :
    PixelFormat.Format_UYVY ≠ PixelFormat.Format_YUYV ∧
    (VideoBridge.createYUYVFrame qtSample dataSample 8 2 2).1.pixelFormat
      ≠ PixelFormat.Format_UYVY ∧
    (VideoBridge.createYUYVFrame qtSample dataSample 8 2 2).1.size = ⟨2, 2⟩ :=
  ⟨by decide,
    (C4_createYUYVFrame_format_and_size qtSample dataSample 8 2 2).2.2.2.2
      PixelFormat.Format_UYVY (by decide),
    (C4_createYUYVFrame_format_and_size qtSample dataSample 8 2 2).2.1⟩

/-- C5: whenever the frame maps for writing, `createYUYVFrame` makes exactly one `memcpy`
call, of `len` bytes: the bytes of the frame at offsets below `len` are those of `data`,
every byte at an offset from `len` on is as the constructor left it, and the byte count of
the frame's buffer is the one the constructor chose.  This holds for every `len`, whatever
its relation to `width`, `height` and that byte count. -/
theorem C5_createYUYVFrame_copies_len_bytes (qt : QtMultimedia) (data : Nat → Nat) (len : Nat)
    (width height : Int)
    (hmap : qt.mapWriteOnly
      (QVideoFrame.ofFormat qt ⟨⟨width, height⟩, PixelFormat.Format_YUYV⟩) = true) :
    memcpyCalls (VideoBridge.createYUYVFrame qt data len width height).2 = [len] ∧
    (∀ i, i < len →
      (VideoBridge.createYUYVFrame qt data len width height).1.bits0 i = data i) ∧
    (∀ i, len ≤ i →
      (VideoBridge.createYUYVFrame qt data len width height).1.bits0 i
        = qt.freshBits ⟨⟨width, height⟩, PixelFormat.Format_YUYV⟩ i) ∧
    (VideoBridge.createYUYVFrame qt data len width height).1.mappedBytes
      = qt.bytesForFormat ⟨⟨width, height⟩, PixelFormat.Format_YUYV⟩ := by
  unfold VideoBridge.createYUYVFrame
  simp only [hmap, if_true]
  refine ⟨rfl, ?_, ?_, rfl⟩
  · intro i hi
    simp [memcpy, hi]
  · intro i hi
    simp [memcpy, Nat.not_lt.mpr hi, QVideoFrame.ofFormat]

/-- C5 at a concrete input where `len` is not `2 * width * height`: a 1 by 1 frame, whose
buffer has 2 bytes, and `len = 5`; the byte at offset 4 is the fifth byte of `data`. -/
theorem C5_createYUYVFrame_copies_len_bytes_witness :
    qtSample.mapWriteOnly
      (QVideoFrame.ofFormat qtSample ⟨⟨1, 1⟩, PixelFormat.Format_YUYV⟩) = true ∧
    (VideoBridge.createYUYVFrame qtSample dataSample 5 1 1).1.mappedBytes = 2 ∧
    memcpyCalls (VideoBridge.createYUYVFrame qtSample dataSample 5 1 1).2 = [5] ∧
    (VideoBridge.createYUYVFrame qtSample dataSample 5 1 1).1.bits0 4 = 5 :=
  ⟨by decide, by decide,
    (C5_createYUYVFrame_copies_len_bytes qtSample dataSample 5 1 1 (by decide)).1,
    (C5_createYUYVFrame_copies_len_bytes qtSample dataSample 5 1 1 (by decide)).2.1 4
      (by decide)⟩

/-! ## The videoSink property -/

/-- C6: a bridge just constructed has `videoSink() == nullptr`; and for an alive bridge
and every sink `s`, `setVideoSink(s)` returns, after it `videoSink()` is `s`, it emits
`videoSinkChanged` exactly once (and makes no other call) when `s` differs from the current
sink, it leaves the state as it was when `s` is the current sink, and a second
`setVideoSink(s)` changes nothing. -/
theorem C6_videoSink_property (w : World) (thisPtr : BridgePtr) :
    VideoBridge.videoSink (VideoBridge.construct w thisPtr) thisPtr = some none ∧
    ∀ (self : VideoBridge) (s : Option SinkPtr), w.objects thisPtr = some self →
      ∃ w2,
        VideoBridge.setVideoSink w thisPtr s = some w2 ∧
        VideoBridge.videoSink w2 thisPtr = some s ∧
        (self.m_videoSink ≠ s → callsSince w w2 = [Call.videoSinkChanged thisPtr] ∧
          videoSinkChangedCalls (callsSince w w2) = [thisPtr]) ∧
        (self.m_videoSink = s → w2 = w) ∧
        VideoBridge.setVideoSink w2 thisPtr s = some w2 := by
  constructor
  · simp [VideoBridge.videoSink, VideoBridge.construct, register_video_bridge_callback]
  · intro self s hobj
    by_cases hs : self.m_videoSink = s
    · refine ⟨w, setVideoSink_same w thisPtr self s hobj hs, ?_, ?_, ?_, ?_⟩
      · simp [VideoBridge.videoSink, hobj, hs]
      · intro h
        exact absurd hs h
      · intro _
        rfl
      · simp [VideoBridge.setVideoSink, hobj, hs]
    · refine ⟨_, setVideoSink_differs w thisPtr self s hobj hs, ?_, ?_, ?_, ?_⟩
      · simp [VideoBridge.videoSink]
      · intro _
        rw [callsSince_append]
        exact ⟨rfl, rfl⟩
      · intro h
        exact absurd h hs
      · simp [VideoBridge.setVideoSink]

/-- C6 at a concrete input: the bridge at address 1 of `worldNoSink` is given sink 7, which
differs from its null sink: one signal is emitted. -/
theorem C6_videoSink_property_witness :
    worldNoSink.objects 1 = some { m_videoSink := none, m_lastSize := QSize.null } ∧
    ∃ w2,
      VideoBridge.setVideoSink worldNoSink 1 (some 7) = some w2 ∧
      VideoBridge.videoSink w2 1 = some (some 7) ∧
      ((none : Option SinkPtr) ≠ some 7 →
        callsSince worldNoSink w2 = [Call.videoSinkChanged 1] ∧
        videoSinkChangedCalls (callsSince worldNoSink w2) = [1]) ∧
      ((none : Option SinkPtr) = some 7 → w2 = worldNoSink) ∧
      VideoBridge.setVideoSink w2 1 (some 7) = some w2 :=
  ⟨rfl, (C6_videoSink_property worldNoSink 1).2
    { m_videoSink := none, m_lastSize := QSize.null } (some 7) rfl⟩

/-! ## No state is kept between pushes -/

/-- C7: a call of `pushFrameYUYV` on an alive bridge returns, makes at most one
`setVideoFrame` call, keeps the calls made before it, and leaves every bridge object (so
`m_videoSink` and `m_lastSize` of this one) and `g_videoBridge` as they were.  The calls it
makes are the same in any other state and for any other bridge with the same sink pointer,
and the same after an earlier push with any arguments. -/
theorem C7_pushFrameYUYV_keeps_no_frame (qt : QtMultimedia) (w : World) (thisPtr : BridgePtr)
    (self : VideoBridge) (data : Nat → Nat) (len : Nat) (width height : Int)
    (hobj : w.objects thisPtr = some self) :
    ∃ w2,
      VideoBridge.pushFrameYUYV qt w thisPtr data len width height = some w2 ∧
      (setVideoFrameCalls (callsSince w w2)).length ≤ 1 ∧
      w2.trace = w.trace ++ callsSince w w2 ∧
      w2.objects = w.objects ∧
      w2.g_videoBridge = w.g_videoBridge ∧
      (∀ (v : World) (p : BridgePtr) (other : VideoBridge),
        v.objects p = some other → other.m_videoSink = self.m_videoSink →
        ∃ v2, VideoBridge.pushFrameYUYV qt v p data len width height = some v2 ∧
          callsSince v v2 = callsSince w w2) ∧
      (∀ (data0 : Nat → Nat) (len0 : Nat) (width0 height0 : Int) (w1 : World),
        VideoBridge.pushFrameYUYV qt w thisPtr data0 len0 width0 height0 = some w1 →
        ∃ w3, VideoBridge.pushFrameYUYV qt w1 thisPtr data len width height = some w3 ∧
          callsSince w1 w3 = callsSince w w2) := by
  refine ⟨_, pushFrameYUYV_eq qt w thisPtr self data len width height hobj, ?_, ?_, rfl, rfl,
    ?_, ?_⟩
  · rw [callsSince_append]
    exact (pushFrameYUYV_calls_deliveries qt self.m_videoSink data len width height).1
  · rw [callsSince_append]
  · intro v p other hv hsame
    refine ⟨_, pushFrameYUYV_eq qt v p other data len width height hv, ?_⟩
    rw [callsSince_append, callsSince_append, hsame]
  · intro data0 len0 width0 height0 w1 h1
    rw [pushFrameYUYV_eq qt w thisPtr self data0 len0 width0 height0 hobj] at h1
    cases h1
    refine ⟨_, pushFrameYUYV_eq qt _ thisPtr self data len width height hobj, ?_⟩
    rw [callsSince_append, callsSince_append]

/-- C7 at a concrete input: the bridge at address 1 of `worldSample`, a 2 by 2 frame. -/
theorem C7_pushFrameYUYV_keeps_no_frame_witness :
    worldSample.objects 1 = some { m_videoSink := some 7, m_lastSize := QSize.null } ∧
    ∃ w2,
      VideoBridge.pushFrameYUYV qtSample worldSample 1 dataSample 8 2 2 = some w2 ∧
      (setVideoFrameCalls (callsSince worldSample w2)).length ≤ 1 ∧
      w2.trace = worldSample.trace ++ callsSince worldSample w2 ∧
      w2.objects = worldSample.objects ∧
      w2.g_videoBridge = worldSample.g_videoBridge ∧
      (∀ (v : World) (p : BridgePtr) (other : VideoBridge),
        v.objects p = some other → other.m_videoSink = some 7 →
        ∃ v2, VideoBridge.pushFrameYUYV qtSample v p dataSample 8 2 2 = some v2 ∧
          callsSince v v2 = callsSince worldSample w2) ∧
      (∀ (data0 : Nat → Nat) (len0 : Nat) (width0 height0 : Int) (w1 : World),
        VideoBridge.pushFrameYUYV qtSample worldSample 1 data0 len0 width0 height0 = some w1 →
        ∃ w3, VideoBridge.pushFrameYUYV qtSample w1 1 dataSample 8 2 2 = some w3 ∧
          callsSince w1 w3 = callsSince worldSample w2) :=
  ⟨rfl, C7_pushFrameYUYV_keeps_no_frame qtSample worldSample 1
    { m_videoSink := some 7, m_lastSize := QSize.null } dataSample 8 2 2 rfl⟩

/-! ## The registered bridge -/

/-- C8: after every sequence of constructions and destructions of bridges, run from
program start, `g_videoBridge` is null or the address of a bridge that is alive, and a
call of `push_frame_yuyv_from_rust` returns: it is never a call through a pointer to a
destroyed bridge. -/
theorem C8_g_videoBridge_null_or_alive (ops : List LifeOp) :
    ((runLife World.init ops).g_videoBridge = none ∨
      ∃ b, (runLife World.init ops).g_videoBridge = some b ∧
        (runLife World.init ops).alive b = true) ∧
    ∀ (qt : QtMultimedia) (data : Nat → Nat) (len : Nat) (width height : Int),
      (push_frame_yuyv_from_rust qt (runLife World.init ops) data len width height).isSome
        = true := by
  have hinv : (runLife World.init ops).registeredAlive :=
    runLife_registeredAlive ops World.init (Or.inl rfl)
  refine ⟨hinv, ?_⟩
  intro qt data len width height
  rcases hinv with h | ⟨b, hb, hal⟩
  · simp [push_frame_yuyv_from_rust, h]
  · cases hobj : (runLife World.init ops).objects b with
    | none => simp [World.alive, hobj] at hal
    | some self =>
      simp [push_frame_yuyv_from_rust, hb,
        pushFrameYUYV_eq qt _ b self data len width height hobj]

/-- C9: after constructing a bridge at `a` and then a bridge at `b`, both are alive and
`g_videoBridge` is `b`; whatever sinks the two bridges are then given,
`push_frame_yuyv_from_rust` does what `pushFrameYUYV` of `b` does and every frame it
delivers goes to the sink of `b`.  Destroying `a` leaves `b` registered and alive.
Destroying `b` leaves `g_videoBridge` null while `a` is alive, and then
`push_frame_yuyv_from_rust` returns with the state unchanged. -/
theorem C9_last_constructed_registered_no_fallback (w : World) (a b : BridgePtr)
    (hab : a ≠ b) :
    (VideoBridge.construct (VideoBridge.construct w a) b).g_videoBridge = some b ∧
    (VideoBridge.construct (VideoBridge.construct w a) b).alive a = true ∧
    (VideoBridge.construct (VideoBridge.construct w a) b).alive b = true ∧
    (∀ (sa sb : Option SinkPtr) (wa wb : World),
      VideoBridge.setVideoSink (VideoBridge.construct (VideoBridge.construct w a) b) a sa
        = some wa →
      VideoBridge.setVideoSink wa b sb = some wb →
      ∀ (qt : QtMultimedia) (data : Nat → Nat) (len : Nat) (width height : Int),
        ∃ w2, push_frame_yuyv_from_rust qt wb data len width height = some w2 ∧
          VideoBridge.pushFrameYUYV qt wb b data len width height = some w2 ∧
          ∀ c ∈ setVideoFrameCalls (callsSince wb w2), some c.1 = sb) ∧
    (VideoBridge.destruct (VideoBridge.construct (VideoBridge.construct w a) b) a).g_videoBridge
      = some b ∧
    (VideoBridge.destruct (VideoBridge.construct (VideoBridge.construct w a) b) a).alive b
      = true ∧
    (VideoBridge.destruct (VideoBridge.construct (VideoBridge.construct w a) b) b).g_videoBridge
      = none ∧
    (VideoBridge.destruct (VideoBridge.construct (VideoBridge.construct w a) b) b).alive a
      = true ∧
    (∀ (qt : QtMultimedia) (data : Nat → Nat) (len : Nat) (width height : Int),
      push_frame_yuyv_from_rust qt
          (VideoBridge.destruct (VideoBridge.construct (VideoBridge.construct w a) b) b)
          data len width height
        = some (VideoBridge.destruct (VideoBridge.construct (VideoBridge.construct w a) b) b))
    := by
  have hba : b ≠ a := fun e => hab e.symm
  refine ⟨rfl, ?_, ?_, ?_, ?_, ?_, ?_, ?_, ?_⟩
  · simp [VideoBridge.construct, register_video_bridge_callback, World.alive,
      Function.update, hab]
  · simp [VideoBridge.construct, register_video_bridge_callback, World.alive]
  · intro sa sb wa wb h1 h2 qt data len width height
    obtain ⟨hg1, _, _⟩ := setVideoSink_result _ _ _ _ h1
    obtain ⟨hg2, ⟨self2, hobj2, hs2⟩, _⟩ := setVideoSink_result _ _ _ _ h2
    have hg : wb.g_videoBridge = some b := by
      rw [hg2, hg1]
      rfl
    refine ⟨_, ?_, pushFrameYUYV_eq qt wb b self2 data len width height hobj2, ?_⟩
    · simp [push_frame_yuyv_from_rust, hg,
        pushFrameYUYV_eq qt wb b self2 data len width height hobj2]
    · rw [callsSince_append, hs2]
      exact (pushFrameYUYV_calls_deliveries qt sb data len width height).2
  · simp [VideoBridge.destruct, VideoBridge.construct, register_video_bridge_callback, hba]
  · simp [VideoBridge.destruct, VideoBridge.construct, register_video_bridge_callback,
      World.alive, Function.update, hba]
  · simp [VideoBridge.destruct, VideoBridge.construct, register_video_bridge_callback]
  · simp [VideoBridge.destruct, VideoBridge.construct, register_video_bridge_callback,
      World.alive, Function.update, hab]
  · intro qt data len width height
    simp [push_frame_yuyv_from_rust, VideoBridge.destruct, VideoBridge.construct,
      register_video_bridge_callback]

/-- C9 at a concrete input: from program start, a bridge is constructed at address 1 and
then one at address 2. -/
theorem C9_last_constructed_registered_no_fallback_witness :
    (1 : BridgePtr) ≠ 2 ∧
    (VideoBridge.construct (VideoBridge.construct World.init 1) 2).g_videoBridge = some 2 ∧
    (VideoBridge.destruct (VideoBridge.construct (VideoBridge.construct World.init 1) 2)
      1).g_videoBridge = some 2 ∧
    (VideoBridge.destruct (VideoBridge.construct (VideoBridge.construct World.init 1) 2)
      2).g_videoBridge = none ∧
    (VideoBridge.destruct (VideoBridge.construct (VideoBridge.construct World.init 1) 2)
      2).alive 1 = true ∧
    push_frame_yuyv_from_rust qtSample
        (VideoBridge.destruct (VideoBridge.construct (VideoBridge.construct World.init 1) 2) 2)
        dataSample 8 2 2
      = some (VideoBridge.destruct
          (VideoBridge.construct (VideoBridge.construct World.init 1) 2) 2) :=
  ⟨by decide,
    (C9_last_constructed_registered_no_fallback World.init 1 2 (by decide)).1,
    (C9_last_constructed_registered_no_fallback World.init 1 2 (by decide)).2.2.2.2.1,
    (C9_last_constructed_registered_no_fallback World.init 1 2 (by decide)).2.2.2.2.2.2.1,
    (C9_last_constructed_registered_no_fallback World.init 1 2 (by decide)).2.2.2.2.2.2.2.1,
    (C9_last_constructed_registered_no_fallback World.init 1 2 (by decide)).2.2.2.2.2.2.2.2
      qtSample dataSample 8 2 2⟩

end LinuxHello
